import Mathlib

/-!
Verification development for the xk6-fasthttp repository.

This file shallowly embeds the error-classification subsystem
(errors/error_codes.go), the deferred metrics dispatcher
(metrics/metrics.go), the Trail sample materialization (tracer/tracer.go),
the pooled-request reset discipline (Client.setupCachedReq), and the
CheckStatus operation, and proves or refutes the frozen claims about them.

Machine integers of the source (ErrCode is uint32, HTTP status is int) are
modelled as Nat: every arithmetic operation performed by the code stays far
below 2^32, so no wraparound is observable and no explicit modulus is needed.
Strings are modelled as Lean String; Go byte slices that only flow through
the code as opaque payloads are modelled as List Nat.
-/

namespace XK6

/-! Error code constants (errors/error_codes.go, const block) -/
def defaultErrorCode : Nat := 1000

def defaultNetNonTCPErrorCode : Nat := 1010

def invalidURLErrorCode : Nat := 1020

def requestTimeoutErrorCode : Nat := 1050

def defaultDNSErrorCode : Nat := 1100

def dnsNoSuchHostErrorCode : Nat := 1101

def blackListedIPErrorCode : Nat := 1110

def blockedHostnameErrorCode : Nat := 1111

def defaultTCPErrorCode : Nat := 1200

def tcpBrokenPipeErrorCode : Nat := 1201

def netUnknownErrnoErrorCode : Nat := 1202

def tcpDialErrorCode : Nat := 1210

def tcpDialTimeoutErrorCode : Nat := 1211

def tcpDialRefusedErrorCode : Nat := 1212

def tcpDialUnknownErrnoCode : Nat := 1213

def tcpResetByPeerErrorCode : Nat := 1220

def defaultTLSErrorCode : Nat := 1300

def tlsHeaderErrorCode : Nat := 1301

def x509UnknownAuthorityErrorCode : Nat := 1310

def x509HostnameErrorCode : Nat := 1311

def unknownHTTP2GoAwayErrorCode : Nat := 1610

def unknownHTTP2StreamErrorCode : Nat := 1630

def unknownHTTP2ConnectionErrorCode : Nat := 1650

def responseDecompressionErrorCode : Nat := 1701

/-! Message constants (errors/error_codes.go, second const block) -/
def tcpDialTimeoutErrorCodeMsg : String := "dial: i/o timeout"

def tcpDialRefusedErrorCodeMsg : String := "dial: connection refused"

def dnsNoSuchHostErrorCodeMsg : String := "lookup: no such host"

def blackListedIPErrorCodeMsg : String := "ip is blacklisted"

def blockedHostnameErrorMsg : String := "hostname is blocked"

def x509HostnameErrorCodeMsg : String := "x509: certificate doesn't match hostname"

def x509UnknownAuthority : String := "x509: unknown authority"

def requestTimeoutErrorCodeMsg : String := "request timeout"

def invalidURLErrorCodeMsg : String := "invalid URL"

/-- The build of the repository provided here ships the Windows variant of the
syscall-specific helper (getOSSyscallErrorCode checks syscall.WSAECONNRESET,
which exists only on Windows), so runtime.GOOS is fixed to "windows". -/
def goos : String := "windows"

/-! Errno constants (values of the syscall package referenced by the code) -/
def ECONNRESET : Nat := 104

def EPIPE : Nat := 32

def ECONNREFUSED : Nat := 111

def WSAECONNRESET : Nat := 10054

/-- Numeric offset for HTTP/2 protocol subcodes (http2ErrCodeOffset).
http2.ErrCodeHTTP11Required is 13, the largest enumerated x/net/http2 code. -/
def http2ErrCodeOffset (code : Nat) : Nat :=
  if code > 13 then 0 else 1 + code

/-- Stringer of x/net/http2 ErrCode values, used in the formatted messages of
the http2 cases of ErrorCodeForError. Beyond the enumerated set the stringer
renders an unknown-code text carrying the hex value. -/
def http2ErrCodeName (c : Nat) : String :=
  match c with
  | 0 => "NO_ERROR"
  | 1 => "PROTOCOL_ERROR"
  | 2 => "INTERNAL_ERROR"
  | 3 => "FLOW_CONTROL_ERROR"
  | 4 => "SETTINGS_TIMEOUT"
  | 5 => "STREAM_CLOSED"
  | 6 => "FRAME_SIZE_ERROR"
  | 7 => "REFUSED_STREAM"
  | 8 => "CANCEL"
  | 9 => "COMPRESSION_ERROR"
  | 10 => "CONNECT_ERROR"
  | 11 => "ENHANCE_YOUR_CALM"
  | 12 => "INADEQUATE_SECURITY"
  | 13 => "HTTP_1_1_REQUIRED"
  | _ => "unknown error code 0x" ++ String.mk (Nat.toDigits 16 c)

/-- Go error values as they are discriminated by the type switch of
ErrorCodeForError. Each constructor is one concrete error type the switch
recognizes; `wrapped` is an arbitrary error exposing Unwrap and `plain` an
arbitrary error without Unwrap (both land in the default branch). The `text`
fields carry the rendering produced by the Error() method of the value. -/
inductive Err where
  | k6Error (code : Nat) (message : String) (original : Option Err)
  | dnsError (errField : String) (text : String)
  | blackListedIP
  | blockedHost
  | http2GoAway (code : Nat)
  | http2Stream (code : Nat)
  | http2Conn (code : Nat)
  | netOpError (net : String) (op : String) (inner : Err) (text : String)
  | osSyscallError (syscallName : String) (inner : Err)
  | errnoErr (errno : Nat) (text : String)
  | x509UnknownAuthority
  | x509Hostname
  | tlsRecordHeader (text : String)
  | urlError (inner : Err)
  | wrapped (inner : Err) (text : String)
  | plain (text : String)

/-- Body of errorCodeForNetOpError. The single recursive call the Go code
makes (ErrorCodeForError on errors.Unwrap(err), which for a net.OpError is
its Err field) is passed in pre-computed as `wrappedClassification`, keeping
the embedding structurally recursive; since the classifier is pure and total
this eager evaluation is observationally identical to the lazy Go call. -/
def errorCodeForNetOpErrorCore (net op : String) (inner : Err) (text : String)
    (wrappedClassification : Nat × String) : Nat × String :=
  if net ≠ "tcp" ∧ net ≠ "tcp6" then
    (defaultNetNonTCPErrorCode, text)
  else
    -- first block: err.Err as *os.SyscallError, switching on sErr.Unwrap();
    -- on fall-through the Windows getOSSyscallErrorCode checks WSAECONNRESET
    let syscallResult : Option (Nat × String) :=
      match inner with
      | .osSyscallError _ (.errnoErr n _) =>
          if n = ECONNRESET then
            some (tcpResetByPeerErrorCode, op ++ ": connection reset by peer")
          else if n = EPIPE then
            some (tcpBrokenPipeErrorCode, op ++ ": broken pipe")
          else if n = WSAECONNRESET then
            some (tcpResetByPeerErrorCode, op ++ ": connection reset by peer")
          else none
      | _ => none
    match syscallResult with
    | some r => r
    | none =>
      if op ≠ "dial" then
        match inner with
        | .errnoErr n ntext =>
            (netUnknownErrnoErrorCode,
              op ++ ": unknown errno `" ++ toString n ++ "` on " ++ goos ++
                " with message `" ++ ntext ++ "`")
        | _ => (defaultTCPErrorCode, text)
      else
        let dialErrno : Option (Nat × String) :=
          match inner with
          | .osSyscallError _ (.errnoErr n ntext) =>
              if n = ECONNREFUSED ∨ (n = 10061 ∧ goos = "windows") then
                some (tcpDialRefusedErrorCode, tcpDialRefusedErrorCodeMsg)
              else
                some (tcpDialUnknownErrnoCode,
                  "dial: unknown errno " ++ toString n ++ " error with msg `" ++ ntext ++ "`")
          | _ => none
        match dialErrno with
        | some r => r
        | none =>
          if wrappedClassification.1 ≠ defaultErrorCode then wrappedClassification
          else (tcpDialErrorCode, text)

/-- The error classifier (ErrorCodeForError): the ordered type switch of
errors/error_codes.go, with the default branch recursing through Unwrap.
K6Error and os.SyscallError expose Unwrap; syscall.Errno does not. -/
def ErrorCodeForError : Err → Nat × String
  | .k6Error code message _ => (code, message)
  | .dnsError errField text =>
      if errField = "no such host" then (dnsNoSuchHostErrorCode, dnsNoSuchHostErrorCodeMsg)
      else (defaultDNSErrorCode, text)
  | .blackListedIP => (blackListedIPErrorCode, blackListedIPErrorCodeMsg)
  | .blockedHost => (blockedHostnameErrorCode, blockedHostnameErrorMsg)
  | .http2GoAway c =>
      (unknownHTTP2GoAwayErrorCode + http2ErrCodeOffset c,
        "http2: received GoAway with http2 ErrCode " ++ http2ErrCodeName c)
  | .http2Stream c =>
      (unknownHTTP2StreamErrorCode + http2ErrCodeOffset c,
        "http2: stream error with http2 ErrCode " ++ http2ErrCodeName c)
  | .http2Conn c =>
      (unknownHTTP2ConnectionErrorCode + http2ErrCodeOffset c,
        "http2: connection error with http2 ErrCode " ++ http2ErrCodeName c)
  | .netOpError net op inner text =>
      errorCodeForNetOpErrorCore net op inner text (ErrorCodeForError inner)
  | .osSyscallError _ inner => ErrorCodeForError inner
  | .errnoErr _ text => (defaultErrorCode, text)
  | .x509UnknownAuthority => (x509UnknownAuthorityErrorCode, x509UnknownAuthority)
  | .x509Hostname => (x509HostnameErrorCode, x509HostnameErrorCodeMsg)
  | .tlsRecordHeader text => (tlsHeaderErrorCode, text)
  | .urlError inner => ErrorCodeForError inner
  | .wrapped inner _ => ErrorCodeForError inner
  | .plain text => (defaultErrorCode, text)

/-- A transparent wrapping layer in the sense of the spec: a url.Error, or a
generic error that merely exposes Unwrap and is recognized by no case of the
switch. -/
inductive TransparentWrap where
  | url
  | generic (text : String)

def applyWrap : TransparentWrap → Err → Err
  | .url, e => .urlError e
  | .generic t, e => .wrapped e t

/-! Tag sets (the k6 TagsAndMeta collaborator consumed by the core) -/
/-- Lookup of a tag value by key (TagSet.Get). -/
def tagGet (ts : List (String × String)) (k : String) : Option String :=
  match ts.find? (fun p => p.1 == k) with
  | some p => some p.2
  | none => none

/-- Setting a tag value (TagSet.With): the returned set maps k to v and every
other key to its previous value. -/
def tagWith (ts : List (String × String)) (k v : String) : List (String × String) :=
  (k, v) :: ts.filter (fun p => p.1 != k)

/-- The tag and metadata context handed to the dispatcher
(metrics.TagsAndMeta). -/
structure TagsAndMeta where
  tags : List (String × String)
  metadata : List (String × String)
deriving DecidableEq

/-! System tag names (metrics.TagX.String()) -/
def tagName : String := "name"

def tagURL : String := "url"

def tagMethod : String := "method"

def tagStatus : String := "status"

def tagError : String := "error"

def tagErrorCode : String := "error_code"

def tagExpectedResponse : String := "expected_response"

def tagIP : String := "ip"

def tagCheck : String := "check"

/-- SetSystemTagOrMetaIfEnabled: sets the tag only when it is in the enabled
system-tag set. Every tag the dispatcher passes here is an indexable system
tag, so the metadata arm of the k6 helper is never taken. -/
def setTagIfEnabled (enabled : List String) (tam : TagsAndMeta) (tag v : String) :
    TagsAndMeta :=
  if enabled.contains tag then { tam with tags := tagWith tam.tags tag v } else tam

/-! Trail (tracer/tracer.go) -/
/-- Builtin metric identities consumed from the k6 registry
(state.BuiltinMetrics). The registry guarantees these are four distinct
metrics, so they are modelled as an enumeration. -/
inductive Metric where
  | httpReqs
  | httpReqDuration
  | httpReqFailed
  | checks
deriving DecidableEq

/-- One timestamped, tagged metric data point (metrics.Sample; the TimeSeries
pair of metric and tags is inlined). -/
structure Sample where
  metric : Metric
  tags : List (String × String)
  time : Nat
  metadata : List (String × String)
  value : Rat
deriving DecidableEq

/-- The tri-state failed flag (gopkg.in/guregu/null.v3 Bool). -/
structure NullBool where
  bool : Bool
  valid : Bool
deriving DecidableEq

/-- Detailed information about one HTTP request (tracer.Trail). Durations are
in nanoseconds, times are abstract instants. -/
structure Trail where
  endTime : Nat
  connDuration : Nat
  duration : Nat
  connRemoteAddr : Option String
  failed : NullBool
  tags : List (String × String)
  metadata : List (String × String)
  samples : List Sample
deriving DecidableEq

/-- metrics.D: a duration in nanoseconds rendered in milliseconds, the
canonical unit of the sink. -/
def metricsD (d : Nat) : Rat := (d : Rat) / 1000000

/-- Trail.SaveSamples: stores the tags and metadata and materializes the
sample slice. The Go code allocates a fresh slice (make) and appends the
request-count and request-duration samples to it, so the stored samples are
exactly those two. -/
def Trail.saveSamples (tr : Trail) (ctm : TagsAndMeta) : Trail :=
  { tr with
    tags := ctm.tags
    metadata := ctm.metadata
    samples :=
      [ { metric := .httpReqs, tags := ctm.tags, time := tr.endTime,
          metadata := ctm.metadata, value := 1 },
        { metric := .httpReqDuration, tags := ctm.tags, time := tr.endTime,
          metadata := ctm.metadata, value := metricsD tr.duration } ] }

/-! Metric dispatcher (metrics/metrics.go) -/
/-- The pooled fasthttp request as the dispatcher reads it: its resolved URI
and HTTP method. -/
structure Request where
  uri : String
  method : String
deriving DecidableEq

/-- The raw fasthttp response as the dispatcher reads it: its status code. -/
structure Response where
  statusCode : Nat
deriving DecidableEq

/-- UnfinishedRequest: the raw round-trip result before its body has been
read, plus its Trail and optional terminal error. The Go context field only
flows into the sink push and is omitted. -/
structure UnfinishedRequest where
  trail : Trail
  request : Request
  response : Response
  err : Option Err

/-- FinishedRequest: the unfinished request plus the materialized Trail and
the resolved error code and message. -/
structure FinishedRequest where
  unfinished : UnfinishedRequest
  trail : Trail
  errorCode : Nat
  errorMsg : String

/-- MetricDispatcher state. The State collaborator contributes the enabled
system-tag set (State.Options.SystemTags); the staged slot is lastRequest.
The mutex makes each exported operation atomic and is represented by the
operations being modelled as atomic steps (see the LockEvent model for the
intra-operation event order). -/
structure MetricDispatcher where
  tagsAndMeta : TagsAndMeta
  enabledTags : List String
  responseCallback : Option (Nat → Bool)
  lastRequest : Option UnfinishedRequest

/-- NewMetricDispatcher: both the response-expectation callback and the
staged slot start at their zero value (nil). -/
def newMetricDispatcher (tags : TagsAndMeta) (enabled : List String) : MetricDispatcher :=
  { tagsAndMeta := tags, enabledTags := enabled,
    responseCallback := none, lastRequest := none }

/-- Models net.SplitHostPort for the address forms the code feeds it (the
String() of a TCP remote address); returns none when the address does not
have exactly one colon separator. -/
def splitHostPort (s : String) : Option (String × String) :=
  match s.splitOn ":" with
  | [h, p] => some (h, p)
  | _ => none

/-- The name and url tag resolution of measureAndEmitMetrics: if no name tag
was manually set, both name and url are derived from the resolved request
URI; otherwise the manual name value is reused for url. -/
def resolveNameURL (enabled : List String) (tam : TagsAndMeta) (uri : String) :
    TagsAndMeta :=
  match tagGet tam.tags tagName with
  | none => setTagIfEnabled enabled (setTagIfEnabled enabled tam tagName uri) tagURL uri
  | some nameVal => setTagIfEnabled enabled tam tagURL nameVal

/-- The outcome branch of measureAndEmitMetrics: on error, classify and tag
error, error_code and a zero status; on success tag the numeric status and,
for a status of at least 400, derive the synthetic code 1000 plus status.
Returns the resolved error code, error message and updated tags. -/
def applyErrorOrStatusTags (enabled : List String) (tam : TagsAndMeta)
    (err : Option Err) (statusCode : Nat) : Nat × String × TagsAndMeta :=
  match err with
  | some e =>
      let cm := ErrorCodeForError e
      let tam1 := setTagIfEnabled enabled tam tagError cm.2
      let tam2 := setTagIfEnabled enabled tam1 tagErrorCode (toString cm.1)
      let tam3 := setTagIfEnabled enabled tam2 tagStatus "0"
      (cm.1, cm.2, tam3)
  | none =>
      let tam1 := setTagIfEnabled enabled tam tagStatus (toString statusCode)
      if 400 ≤ statusCode then
        let code := 1000 + statusCode
        (code, "", setTagIfEnabled enabled tam1 tagErrorCode (toString code))
      else
        (0, "", tam1)

/-- The ip tag step of measureAndEmitMetrics: only when the ip system tag is
enabled and the connection has a remote address that splits into host and
port. -/
def applyIPTag (enabled : List String) (tam : TagsAndMeta)
    (connRemoteAddr : Option String) : TagsAndMeta :=
  if enabled.contains tagIP then
    match connRemoteAddr with
    | some addr =>
        match splitHostPort addr with
        | some hp => { tam with tags := tagWith tam.tags tagIP hp.1 }
        | none => tam
    | none => tam
  else tam

/-- The name, url and method tag block of measureAndEmitMetrics. -/
def baseTags (d : MetricDispatcher) (unfReq : UnfinishedRequest) : TagsAndMeta :=
  setTagIfEnabled d.enabledTags
    (resolveNameURL d.enabledTags d.tagsAndMeta unfReq.request.uri)
    tagMethod unfReq.request.method

/-- The outcome block of measureAndEmitMetrics applied after the base tags:
resolved error code, error message and tags. -/
def outcome (d : MetricDispatcher) (unfReq : UnfinishedRequest) :
    Nat × String × TagsAndMeta :=
  applyErrorOrStatusTags d.enabledTags (baseTags d unfReq) unfReq.err
    unfReq.response.statusCode

/-- The status handed to the response-expectation callback: zero when the
request errored. -/
def statusForCallback (unfReq : UnfinishedRequest) : Nat :=
  match unfReq.err with
  | none => unfReq.response.statusCode
  | some _ => 0

/-- The evaluated response-expectation predicate, when one is configured. -/
def expectedOutcome (d : MetricDispatcher) (unfReq : UnfinishedRequest) : Option Bool :=
  d.responseCallback.map fun cb => cb (statusForCallback unfReq)

/-- The failed value appended as the http_req_failed sample: 1 exactly when a
configured expectation was not met. -/
def failedValue (d : MetricDispatcher) (unfReq : UnfinishedRequest) : Rat :=
  match expectedOutcome d unfReq with
  | some false => 1
  | _ => 0

/-- All tag assembly of measureAndEmitMetrics: base tags, outcome tags, the
optional ip tag and the optional expected_response tag, in statement order. -/
def emitTags (d : MetricDispatcher) (unfReq : UnfinishedRequest) : TagsAndMeta :=
  let tam4 := applyIPTag d.enabledTags (outcome d unfReq).2.2 unfReq.trail.connRemoteAddr
  match expectedOutcome d unfReq with
  | some expected =>
      setTagIfEnabled d.enabledTags tam4 tagExpectedResponse (toString expected)
  | none => tam4

/-- MetricDispatcher.measureAndEmitMetrics: finishes the Trail, assembles the
tag values and materializes the metric samples for the supplied unfinished
request. The returned FinishedRequest carries the Trail that is pushed to
the sink. When a response callback is configured the tri-state failed flag
becomes valid (its bool raised only on failure) and an http_req_failed
sample is appended after the base samples. -/
def measureAndEmitMetrics (d : MetricDispatcher) (unfReq : UnfinishedRequest) :
    FinishedRequest :=
  let tam5 := emitTags d unfReq
  let trail1 := unfReq.trail.saveSamples tam5
  let trail2 := match d.responseCallback with
    | some _ =>
        { trail1 with
          failed := { valid := true,
                      bool := if failedValue d unfReq = 1 then true
                              else trail1.failed.bool },
          samples := trail1.samples ++
            [ { metric := .httpReqFailed, tags := tam5.tags, time := trail1.endTime,
                metadata := tam5.metadata, value := failedValue d unfReq } ] }
    | none => trail1
  { unfinished := unfReq, trail := trail2,
    errorCode := (outcome d unfReq).1, errorMsg := (outcome d unfReq).2.1 }

/-- MetricDispatcher.ProcessLastSavedRequest: atomically takes the staged
slot; if a request was staged, an error supplied by the caller is attached
only when the request recorded none, and the request is then measured and
emitted. -/
def processLastSavedRequest (d : MetricDispatcher) (lastErr : Option Err) :
    MetricDispatcher × Option FinishedRequest :=
  let unprocessed := d.lastRequest
  let d1 := { d with lastRequest := none }
  match unprocessed with
  | none => (d1, none)
  | some u =>
      let u1 := match u.err, lastErr with
        | none, some e => { u with err := some e }
        | _, _ => u
      (d1, some (measureAndEmitMetrics d1 u1))

/-- MetricDispatcher.SaveCurrentRequest: atomically swaps the staged slot for
the current request and, if a previous request was staged, measures and
emits it (after a warning log, which carries no state). -/
def saveCurrentRequest (d : MetricDispatcher) (currentRequest : UnfinishedRequest) :
    MetricDispatcher × Option FinishedRequest :=
  let unprocessed := d.lastRequest
  let d1 := { d with lastRequest := some currentRequest }
  match unprocessed with
  | none => (d1, none)
  | some u => (d1, some (measureAndEmitMetrics d1 u))

/-! Sequential operation traces over one dispatcher -/
/-- One exported dispatcher operation. -/
inductive Op where
  | save (req : UnfinishedRequest)
  | process (lastErr : Option Err)

/-- One atomic operation step, returning the emissions it produced. -/
def step (d : MetricDispatcher) : Op → MetricDispatcher × List FinishedRequest
  | .save r =>
      let res := saveCurrentRequest d r
      (res.1, res.2.toList)
  | .process lastErr =>
      let res := processLastSavedRequest d lastErr
      (res.1, res.2.toList)

/-- Running a sequence of operations, collecting all emissions in order. -/
def runOps (d : MetricDispatcher) : List Op → MetricDispatcher × List FinishedRequest
  | [] => (d, [])
  | op :: rest =>
      let r1 := step d op
      let r2 := runOps r1.1 rest
      (r2.1, r1.2 ++ r2.2)

/-- The requests staged by a sequence of operations, in order. -/
def stagedRequests (ops : List Op) : List UnfinishedRequest :=
  ops.filterMap fun op =>
    match op with
    | .save r => some r
    | .process _ => none

def c4Disp : MetricDispatcher :=
  newMetricDispatcher { tags := [], metadata := [] }
    [tagName, tagURL, tagMethod, tagStatus, tagError, tagErrorCode]

def c4Trail : Trail :=
  { endTime := 3, connDuration := 1, duration := 5, connRemoteAddr := none,
    failed := ⟨false, false⟩, tags := [], metadata := [], samples := [] }

def c4Unf : UnfinishedRequest :=
  { trail := c4Trail, request := { uri := "http://a/x", method := "GET" },
    response := { statusCode := 404 }, err := none }

def c4UnfErr : UnfinishedRequest :=
  { trail := c4Trail, request := { uri := "http://a/x", method := "GET" },
    response := { statusCode := 0 }, err := some (.plain "boom") }

/-! C9: Trail.SaveSamples repeated invocation -/
def c9Trail : Trail :=
  { endTime := 7, connDuration := 0, duration := 2000000, connRemoteAddr := none,
    failed := ⟨false, false⟩, tags := [], metadata := [], samples := [] }

def c9Ctm : TagsAndMeta := { tags := [("name", "http://a/")], metadata := [] }

/-- The order of the lock, slot and emission statements inside one dispatcher
operation, read off the source: both SaveCurrentRequest and
ProcessLastSavedRequest acquire the lock, read and write the staged slot,
release the lock, and only then, when a request had been staged, measure and
emit it. -/
inductive LockEvent where
  | lock
  | swap
  | unlock
  | emit
deriving DecidableEq

def saveCurrentRequestEvents (hadStaged : Bool) : List LockEvent :=
  [.lock, .swap, .unlock] ++ (if hadStaged then [.emit] else [])

def processLastSavedRequestEvents (hadStaged : Bool) : List LockEvent :=
  [.lock, .swap, .unlock] ++ (if hadStaged then [.emit] else [])

/-- Whether an emit event occurs inside the critical section of the lock
acquisition that performs the slot swap, i.e. before the unlock event. -/
def emitUnderSwapLock (evs : List LockEvent) : Bool :=
  (evs.takeWhile fun e => e != LockEvent.unlock).contains LockEvent.emit

/-! C6: pooled request reset discipline (Client.setupCachedReq) -/
/-- The body configured on a RequestWrapper: absent (a nil interface value),
an in-memory string, a goja ArrayBuffer payload, or a FileStream carrying
its contents and current read position. -/
inductive ReqBody where
  | null
  | str (s : String)
  | arrayBuffer (bytes : List Nat)
  | fileStream (content : List Nat) (pos : Nat)
deriving DecidableEq

def ReqBody.isNull : ReqBody → Bool
  | .null => true
  | _ => false

/-- setBody: whether the current call carries a body (a body is configured
and the method is neither HEAD nor GET). -/
def setBody (method : String) (body : ReqBody) : Bool :=
  !body.isNull && method != "HEAD" && method != "GET"

/-- The pooled fasthttp request state touched by the reset discipline. -/
structure FastReq where
  method : String
  uri : String
  body : Option (List Nat)
  bodyStream : Option (List Nat × Nat)
deriving DecidableEq

/-- Client.setupCachedReq: reuse of a pooled request instance. When the
current call carries a body, only a FileStream body is acted on (seek to the
start, modelled as resetting the position, and re-attach as the body
stream); otherwise the body and body stream are cleared and the method is
set. The Seek error path requires an OS-level failure on an open file and is
not representable in this pure model. -/
def setupCachedReq (req : FastReq) (reqwBody : ReqBody) (method : String) : FastReq :=
  if setBody method reqwBody then
    match reqwBody with
    | .fileStream content _ => { req with bodyStream := some (content, 0) }
    | _ => req
  else
    { req with body := none, bodyStream := none, method := method }

def c6CachedReq : FastReq :=
  { method := "GET", uri := "http://a/", body := none, bodyStream := none }

/-! C7: CheckStatus (the check operation) -/
/-- ModuleInstance.CheckStatus as implemented over goja (src/unnamed/
part_003): compares the response status to the wanted status, records a
check sample tagged with the check name (when the check system tag is
enabled) whose value is 1 on pass and 0 on fail, and returns the outcome.
The group-check counters and the push context carry no further state
relevant here. -/
def checkStatusGoja (systemTagsHasCheck : Bool) (commonTags : TagsAndMeta)
    (wantStatus : Int) (respStatus : Int) (now : Nat) : Bool × Sample :=
  let checkName := "check status is " ++ toString wantStatus
  let tags := if systemTagsHasCheck then tagWith commonTags.tags tagCheck checkName
              else commonTags.tags
  let pass := respStatus == wantStatus
  (pass,
    { metric := .checks, tags := tags, time := now,
      metadata := commonTags.metadata, value := if pass then 1 else 0 })

/-- ModuleInstance.CheckStatus as implemented over sobek (src/unnamed/
part_002): the same comparison and tagging, but the sample value is
initialized to 0 and never raised, even when the check passes. -/
def checkStatusSobek (systemTagsHasCheck : Bool) (commonTags : TagsAndMeta)
    (wantStatus : Int) (respStatus : Int) (now : Nat) : Bool × Sample :=
  let checkName := "check status is " ++ toString wantStatus
  let tags := if systemTagsHasCheck then tagWith commonTags.tags tagCheck checkName
              else commonTags.tags
  let pass := respStatus == wantStatus
  (pass,
    { metric := .checks, tags := tags, time := now,
      metadata := commonTags.metadata, value := 0 })

theorem errorCodeForError_applyWrap (w : TransparentWrap) (e : Err) :
    ErrorCodeForError (applyWrap w e) = ErrorCodeForError e := by
  cases w <;> simp [applyWrap, ErrorCodeForError]

/-- C3: for every error of the form outer(inner(cause)) whose outer and inner
layers are transparent wrappers (a url.Error or a generic error supporting
Unwrap), ErrorCodeForError classifies it exactly as it classifies the cause;
in particular a URL error wrapping a DNS no-such-host resolution failure
classifies to the DNS no-such-host code 1101, not the generic fallback 1000. -/
theorem classify_transparent_wrappers (w1 w2 : TransparentWrap) (cause : Err) :
    ErrorCodeForError (applyWrap w1 (applyWrap w2 cause)) = ErrorCodeForError cause ∧
    ErrorCodeForError
        (.urlError (.dnsError "no such host" "lookup example.com: no such host")) =
      (1101, dnsNoSuchHostErrorCodeMsg) ∧
    (1101 : Nat) ≠ 1000 := by
  refine ⟨?_, rfl, by decide⟩
  rw [errorCodeForError_applyWrap, errorCodeForError_applyWrap]

/-- C5: every HTTP/2 GoAway, stream, or connection error whose protocol
subcode is within the enumerated range (at most ErrCodeHTTP11Required, 13)
classifies to the partition base code plus 1 plus the subcode, and every
subcode beyond that range classifies to exactly the partition unknown base
code (1610, 1630, 1650 respectively); the classifier is a total function, so
classification never panics. -/
theorem classify_http2_subcodes (c : Nat) :
    (c ≤ 13 →
      (ErrorCodeForError (.http2GoAway c)).1 = 1610 + 1 + c ∧
      (ErrorCodeForError (.http2Stream c)).1 = 1630 + 1 + c ∧
      (ErrorCodeForError (.http2Conn c)).1 = 1650 + 1 + c) ∧
    (13 < c →
      (ErrorCodeForError (.http2GoAway c)).1 = 1610 ∧
      (ErrorCodeForError (.http2Stream c)).1 = 1630 ∧
      (ErrorCodeForError (.http2Conn c)).1 = 1650) := by
  constructor
  · intro h
    simp only [ErrorCodeForError, http2ErrCodeOffset, unknownHTTP2GoAwayErrorCode,
      unknownHTTP2StreamErrorCode, unknownHTTP2ConnectionErrorCode]
    rw [if_neg (by omega)]
    omega
  · intro h
    simp only [ErrorCodeForError, http2ErrCodeOffset, unknownHTTP2GoAwayErrorCode,
      unknownHTTP2StreamErrorCode, unknownHTTP2ConnectionErrorCode]
    rw [if_pos (by omega)]
    omega

/-- Witness for C5 at concrete subcodes: GoAway subcode 5 maps to 1616 and a
stream subcode beyond the enumerated range collapses to 1630. -/
theorem classify_http2_subcodes_witness :
    (ErrorCodeForError (.http2GoAway 5)).1 = 1616 ∧
    (ErrorCodeForError (.http2Stream 77)).1 = 1630 := by
  constructor
  · have h := ((classify_http2_subcodes 5).1 (by omega)).1
    omega
  · exact ((classify_http2_subcodes 77).2 (by omega)).2.1

/-- C8: the classifier totally returns a code and message pair: an error
recognized by no case and wrapping no inner error yields exactly the generic
fallback code 1000 paired with its own rendered text, and a pre-classified
K6Error returns its stored code and message verbatim. -/
theorem classify_fallback_and_preclassified (t : String) (code : Nat) (msg : String)
    (orig : Option Err) :
    ErrorCodeForError (.plain t) = (1000, t) ∧
    ErrorCodeForError (.k6Error code msg orig) = (code, msg) :=
  ⟨rfl, rfl⟩

theorem tagGet_tagWith_same (ts : List (String × String)) (k v : String) :
    tagGet (tagWith ts k v) k = some v := by
  simp [tagGet, tagWith, List.find?_cons_of_pos]

theorem find?_filter_ne (ts : List (String × String)) (k k' : String) (h : k' ≠ k) :
    (ts.filter (fun p => p.1 != k)).find? (fun p => p.1 == k') =
      ts.find? (fun p => p.1 == k') := by
  induction ts with
  | nil => rfl
  | cons a ts ih =>
    by_cases hk : a.1 = k
    · have hf : (a.1 != k) = false := by simp [hk]
      have h2 : (a.1 == k') = false := by
        simp only [beq_eq_false_iff_ne, ne_eq, hk]
        exact fun hh => h hh.symm
      simp [List.filter_cons, hf, List.find?, h2, ih]
    · have hf : (a.1 != k) = true := by simp [hk]
      by_cases hk' : a.1 = k'
      · have h2 : (a.1 == k') = true := by simp [hk']
        simp [List.filter_cons, hf, List.find?, h2]
      · have h2 : (a.1 == k') = false := by simp [hk']
        simp [List.filter_cons, hf, List.find?, h2, ih]

theorem tagGet_tagWith_ne (ts : List (String × String)) (k v k' : String) (h : k' ≠ k) :
    tagGet (tagWith ts k v) k' = tagGet ts k' := by
  have hne : (k == k') = false := by
    simp only [beq_eq_false_iff_ne, ne_eq]
    exact fun hh => h hh.symm
  simp [tagGet, tagWith, List.find?_cons_of_neg, hne, find?_filter_ne ts k k' h]

/-! Basic lemmas about the tag stages -/
theorem tagGet_setTagIfEnabled_ne (enabled : List String) (tam : TagsAndMeta)
    (tag v k : String) (h : k ≠ tag) :
    tagGet (setTagIfEnabled enabled tam tag v).tags k = tagGet tam.tags k := by
  unfold setTagIfEnabled
  split
  · exact tagGet_tagWith_ne _ _ _ _ h
  · rfl

theorem tagGet_setTagIfEnabled_same (enabled : List String) (tam : TagsAndMeta)
    (tag v : String) (h : enabled.contains tag = true) :
    tagGet (setTagIfEnabled enabled tam tag v).tags tag = some v := by
  unfold setTagIfEnabled
  rw [if_pos h]
  exact tagGet_tagWith_same _ _ _

theorem tagGet_resolveNameURL_ne (enabled : List String) (tam : TagsAndMeta)
    (uri k : String) (h1 : k ≠ tagName) (h2 : k ≠ tagURL) :
    tagGet (resolveNameURL enabled tam uri).tags k = tagGet tam.tags k := by
  unfold resolveNameURL
  cases hn : tagGet tam.tags tagName with
  | none =>
      rw [tagGet_setTagIfEnabled_ne _ _ _ _ _ h2, tagGet_setTagIfEnabled_ne _ _ _ _ _ h1]
  | some v =>
      rw [tagGet_setTagIfEnabled_ne _ _ _ _ _ h2]

theorem tagGet_applyIPTag_ne (enabled : List String) (tam : TagsAndMeta)
    (addr : Option String) (k : String) (h : k ≠ tagIP) :
    tagGet (applyIPTag enabled tam addr).tags k = tagGet tam.tags k := by
  unfold applyIPTag
  split
  · cases addr with
    | none => rfl
    | some a =>
        cases hs : splitHostPort a with
        | none => simp [hs]
        | some hp =>
            simp only [hs]
            exact tagGet_tagWith_ne _ _ _ _ h
  · rfl

theorem measureAndEmit_trail_tags (d : MetricDispatcher) (u : UnfinishedRequest) :
    (measureAndEmitMetrics d u).trail.tags = (emitTags d u).tags := by
  unfold measureAndEmitMetrics
  cases d.responseCallback <;> rfl

theorem measureAndEmit_errorCode (d : MetricDispatcher) (u : UnfinishedRequest) :
    (measureAndEmitMetrics d u).errorCode = (outcome d u).1 := by
  unfold measureAndEmitMetrics
  cases d.responseCallback <;> rfl

theorem measureAndEmit_errorMsg (d : MetricDispatcher) (u : UnfinishedRequest) :
    (measureAndEmitMetrics d u).errorMsg = (outcome d u).2.1 := by
  unfold measureAndEmitMetrics
  cases d.responseCallback <;> rfl

theorem measureAndEmit_unfinished (d : MetricDispatcher) (u : UnfinishedRequest) :
    (measureAndEmitMetrics d u).unfinished = u := by
  unfold measureAndEmitMetrics
  cases d.responseCallback <;> rfl

theorem tagGet_baseTags_ne (d : MetricDispatcher) (u : UnfinishedRequest) (k : String)
    (h1 : k ≠ tagName) (h2 : k ≠ tagURL) (h3 : k ≠ tagMethod) :
    tagGet (baseTags d u).tags k = tagGet d.tagsAndMeta.tags k := by
  unfold baseTags
  rw [tagGet_setTagIfEnabled_ne _ _ _ _ _ h3]
  exact tagGet_resolveNameURL_ne _ _ _ _ h1 h2

theorem outcome_some_eq (d : MetricDispatcher) (u : UnfinishedRequest) (e : Err)
    (he : u.err = some e) :
    outcome d u = ((ErrorCodeForError e).1, (ErrorCodeForError e).2,
      setTagIfEnabled d.enabledTags
        (setTagIfEnabled d.enabledTags
          (setTagIfEnabled d.enabledTags (baseTags d u) tagError (ErrorCodeForError e).2)
          tagErrorCode (toString (ErrorCodeForError e).1))
        tagStatus "0") := by
  simp [outcome, applyErrorOrStatusTags, he]

theorem outcome_none_ge_eq (d : MetricDispatcher) (u : UnfinishedRequest)
    (he : u.err = none) (hge : 400 ≤ u.response.statusCode) :
    outcome d u = (1000 + u.response.statusCode, "",
      setTagIfEnabled d.enabledTags
        (setTagIfEnabled d.enabledTags (baseTags d u) tagStatus
          (toString u.response.statusCode))
        tagErrorCode (toString (1000 + u.response.statusCode))) := by
  simp [outcome, applyErrorOrStatusTags, he, hge]

theorem outcome_none_lt_eq (d : MetricDispatcher) (u : UnfinishedRequest)
    (he : u.err = none) (hlt : u.response.statusCode < 400) :
    outcome d u = (0, "",
      setTagIfEnabled d.enabledTags (baseTags d u) tagStatus
        (toString u.response.statusCode)) := by
  have hn : ¬ 400 ≤ u.response.statusCode := by omega
  simp [outcome, applyErrorOrStatusTags, he, hn]

theorem tagGet_emitTags_pre (d : MetricDispatcher) (u : UnfinishedRequest) (k : String)
    (h1 : k ≠ tagIP) (h2 : k ≠ tagExpectedResponse) :
    tagGet (emitTags d u).tags k = tagGet (outcome d u).2.2.tags k := by
  simp only [emitTags]
  cases hexp : expectedOutcome d u with
  | none => exact tagGet_applyIPTag_ne _ _ _ _ h1
  | some b =>
      rw [tagGet_setTagIfEnabled_ne _ _ _ _ _ h2]
      exact tagGet_applyIPTag_ne _ _ _ _ h1

theorem tagGet_outcome_untouched (d : MetricDispatcher) (u : UnfinishedRequest) (k : String)
    (h1 : k ≠ tagName) (h2 : k ≠ tagURL) (h3 : k ≠ tagMethod) (h4 : k ≠ tagStatus)
    (h5 : k ≠ tagError) (h6 : k ≠ tagErrorCode) :
    tagGet (outcome d u).2.2.tags k = tagGet d.tagsAndMeta.tags k := by
  cases herr : u.err with
  | some e =>
      rw [outcome_some_eq _ _ _ herr]
      rw [tagGet_setTagIfEnabled_ne _ _ _ _ _ h4, tagGet_setTagIfEnabled_ne _ _ _ _ _ h6,
        tagGet_setTagIfEnabled_ne _ _ _ _ _ h5]
      exact tagGet_baseTags_ne _ _ _ h1 h2 h3
  | none =>
      by_cases hge : 400 ≤ u.response.statusCode
      · rw [outcome_none_ge_eq _ _ herr hge]
        rw [tagGet_setTagIfEnabled_ne _ _ _ _ _ h6, tagGet_setTagIfEnabled_ne _ _ _ _ _ h4]
        exact tagGet_baseTags_ne _ _ _ h1 h2 h3
      · rw [outcome_none_lt_eq _ _ herr (by omega)]
        rw [tagGet_setTagIfEnabled_ne _ _ _ _ _ h4]
        exact tagGet_baseTags_ne _ _ _ h1 h2 h3

theorem tagGet_emitTags_untouched (d : MetricDispatcher) (u : UnfinishedRequest) (k : String)
    (h1 : k ≠ tagName) (h2 : k ≠ tagURL) (h3 : k ≠ tagMethod) (h4 : k ≠ tagStatus)
    (h5 : k ≠ tagError) (h6 : k ≠ tagErrorCode) (h7 : k ≠ tagIP)
    (h8 : k ≠ tagExpectedResponse) :
    tagGet (emitTags d u).tags k = tagGet d.tagsAndMeta.tags k := by
  rw [tagGet_emitTags_pre _ _ _ h7 h8]
  exact tagGet_outcome_untouched _ _ _ h1 h2 h3 h4 h5 h6

/-! C2: ProcessLastSavedRequest error precedence -/
/-- C2: ProcessLastSavedRequest on an empty staged slot returns nothing and
leaves the slot empty; when the staged request recorded no error and the
caller supplies one, that error is attached before classification (the
emitted request carries it and the resolved code and message classify it);
and an error already recorded on the staged request is never overwritten by
the caller-supplied one. -/
theorem processLastSavedRequest_error_precedence (d : MetricDispatcher)
    (lastErr : Option Err) :
    (d.lastRequest = none →
      (processLastSavedRequest d lastErr).2 = none ∧
      (processLastSavedRequest d lastErr).1.lastRequest = none) ∧
    (∀ u e, d.lastRequest = some u → u.err = none → lastErr = some e →
      ∃ fin, (processLastSavedRequest d lastErr).2 = some fin ∧
        fin.unfinished.err = some e ∧
        fin.errorCode = (ErrorCodeForError e).1 ∧
        fin.errorMsg = (ErrorCodeForError e).2) ∧
    (∀ u e0, d.lastRequest = some u → u.err = some e0 →
      ∃ fin, (processLastSavedRequest d lastErr).2 = some fin ∧
        fin.unfinished.err = some e0) := by
  refine ⟨?_, ?_, ?_⟩
  · intro h
    simp [processLastSavedRequest, h]
  · intro u e hd hu hl
    subst hl
    refine ⟨measureAndEmitMetrics { d with lastRequest := none } { u with err := some e },
      ?_, ?_, ?_, ?_⟩
    · simp [processLastSavedRequest, hd, hu]
    · rw [measureAndEmit_unfinished]
    · rw [measureAndEmit_errorCode]
      simp [outcome, applyErrorOrStatusTags]
    · rw [measureAndEmit_errorMsg]
      simp [outcome, applyErrorOrStatusTags]
  · intro u e0 hd hu
    cases hl : lastErr with
    | none =>
        refine ⟨measureAndEmitMetrics { d with lastRequest := none } u, ?_, ?_⟩
        · simp [processLastSavedRequest, hd, hu]
        · rw [measureAndEmit_unfinished, hu]
    | some e1 =>
        refine ⟨measureAndEmitMetrics { d with lastRequest := none } u, ?_, ?_⟩
        · simp [processLastSavedRequest, hd, hu]
        · rw [measureAndEmit_unfinished, hu]

/-- Witness for C2: a dispatcher with an empty slot returns nothing, and a
staged request that already carries a timeout error keeps it even when the
caller supplies a different one. -/
theorem processLastSavedRequest_error_precedence_witness :
    (processLastSavedRequest (newMetricDispatcher ⟨[], []⟩ []) (some (.plain "late"))).2
        = none ∧
    (∃ fin,
      (processLastSavedRequest
          { newMetricDispatcher ⟨[], []⟩ [] with
            lastRequest := some
              { trail := { endTime := 0, connDuration := 0, duration := 0,
                           connRemoteAddr := none, failed := ⟨false, false⟩,
                           tags := [], metadata := [], samples := [] },
                request := { uri := "http://a/", method := "GET" },
                response := { statusCode := 0 },
                err := some (.plain "original") } }
          (some (.plain "late"))).2 = some fin ∧
      fin.unfinished.err = some (.plain "original")) := by
  constructor
  · exact ((processLastSavedRequest_error_precedence _ _).1 rfl).1
  · exact (processLastSavedRequest_error_precedence _
      (some (.plain "late"))).2.2 _ (.plain "original") rfl rfl

/-! C4: outcome tags of measureAndEmitMetrics -/
/-- C4: for every request emitted by measureAndEmitMetrics (with the status,
error and error_code system tags enabled): a request carrying an error gets
a status tag of "0" and the classified error code and message as tags, and a
request carrying no error gets the numeric status as its status tag and,
when the status is at least 400, the synthetic error code 1000 plus status
(so 404 yields 1404); below 400 no synthetic code is assigned (the code
stays at its zero value), so synthetic status-derived codes arise only when
no transport error occurred. -/
theorem measureAndEmit_outcome_tags (d : MetricDispatcher) (u : UnfinishedRequest)
    (hs : d.enabledTags.contains tagStatus = true)
    (he : d.enabledTags.contains tagError = true)
    (hc : d.enabledTags.contains tagErrorCode = true) :
    (∀ e, u.err = some e →
      tagGet (measureAndEmitMetrics d u).trail.tags tagStatus = some "0" ∧
      tagGet (measureAndEmitMetrics d u).trail.tags tagError =
        some (ErrorCodeForError e).2 ∧
      tagGet (measureAndEmitMetrics d u).trail.tags tagErrorCode =
        some (toString (ErrorCodeForError e).1) ∧
      (measureAndEmitMetrics d u).errorCode = (ErrorCodeForError e).1) ∧
    (u.err = none →
      tagGet (measureAndEmitMetrics d u).trail.tags tagStatus =
        some (toString u.response.statusCode) ∧
      (400 ≤ u.response.statusCode →
        (measureAndEmitMetrics d u).errorCode = 1000 + u.response.statusCode ∧
        tagGet (measureAndEmitMetrics d u).trail.tags tagErrorCode =
          some (toString (1000 + u.response.statusCode))) ∧
      (u.response.statusCode < 400 → (measureAndEmitMetrics d u).errorCode = 0)) := by
  constructor
  · intro e herr
    refine ⟨?_, ?_, ?_, ?_⟩
    · rw [measureAndEmit_trail_tags, tagGet_emitTags_pre _ _ _ (by decide) (by decide),
        outcome_some_eq _ _ _ herr]
      exact tagGet_setTagIfEnabled_same _ _ _ _ hs
    · rw [measureAndEmit_trail_tags, tagGet_emitTags_pre _ _ _ (by decide) (by decide),
        outcome_some_eq _ _ _ herr, tagGet_setTagIfEnabled_ne _ _ _ _ _ (by decide),
        tagGet_setTagIfEnabled_ne _ _ _ _ _ (by decide)]
      exact tagGet_setTagIfEnabled_same _ _ _ _ he
    · rw [measureAndEmit_trail_tags, tagGet_emitTags_pre _ _ _ (by decide) (by decide),
        outcome_some_eq _ _ _ herr, tagGet_setTagIfEnabled_ne _ _ _ _ _ (by decide)]
      exact tagGet_setTagIfEnabled_same _ _ _ _ hc
    · rw [measureAndEmit_errorCode, outcome_some_eq _ _ _ herr]
  · intro herr
    refine ⟨?_, ?_, ?_⟩
    · by_cases hge : 400 ≤ u.response.statusCode
      · rw [measureAndEmit_trail_tags, tagGet_emitTags_pre _ _ _ (by decide) (by decide),
          outcome_none_ge_eq _ _ herr hge, tagGet_setTagIfEnabled_ne _ _ _ _ _ (by decide)]
        exact tagGet_setTagIfEnabled_same _ _ _ _ hs
      · rw [measureAndEmit_trail_tags, tagGet_emitTags_pre _ _ _ (by decide) (by decide),
          outcome_none_lt_eq _ _ herr (by omega)]
        exact tagGet_setTagIfEnabled_same _ _ _ _ hs
    · intro hge
      constructor
      · rw [measureAndEmit_errorCode, outcome_none_ge_eq _ _ herr hge]
      · rw [measureAndEmit_trail_tags, tagGet_emitTags_pre _ _ _ (by decide) (by decide),
          outcome_none_ge_eq _ _ herr hge]
        exact tagGet_setTagIfEnabled_same _ _ _ _ hc
    · intro hlt
      rw [measureAndEmit_errorCode, outcome_none_lt_eq _ _ herr hlt]

/-- Witness for C4 at concrete inputs: a 404 response yields the synthetic
code 1404 and a status tag of "404", and an errored request yields a status
tag of "0" with the generic code 1000 as the error_code tag. -/
theorem measureAndEmit_outcome_tags_witness :
    (measureAndEmitMetrics c4Disp c4Unf).errorCode = 1404 ∧
    tagGet (measureAndEmitMetrics c4Disp c4Unf).trail.tags tagStatus = some "404" ∧
    tagGet (measureAndEmitMetrics c4Disp c4UnfErr).trail.tags tagStatus = some "0" ∧
    tagGet (measureAndEmitMetrics c4Disp c4UnfErr).trail.tags tagErrorCode = some "1000" := by
  have h1 := (measureAndEmit_outcome_tags c4Disp c4Unf (by decide) (by decide) (by decide)).2
    rfl
  have h2 := (measureAndEmit_outcome_tags c4Disp c4UnfErr (by decide) (by decide)
    (by decide)).1 (.plain "boom") rfl
  refine ⟨?_, ?_, h2.1, ?_⟩
  · have := (h1.2.1 (by decide)).1
    simpa [c4Unf] using this
  · have := h1.1
    simpa [c4Unf] using this
  · have := h2.2.2.1
    simpa [ErrorCodeForError] using this

/-! C10: the response callback is never configured -/
theorem runOps_preserves_config (d : MetricDispatcher) (ops : List Op) :
    (runOps d ops).1.responseCallback = d.responseCallback ∧
    (runOps d ops).1.tagsAndMeta = d.tagsAndMeta ∧
    (runOps d ops).1.enabledTags = d.enabledTags := by
  induction ops generalizing d with
  | nil => exact ⟨rfl, rfl, rfl⟩
  | cons op rest ih =>
    have hstep : (step d op).1.responseCallback = d.responseCallback ∧
        (step d op).1.tagsAndMeta = d.tagsAndMeta ∧
        (step d op).1.enabledTags = d.enabledTags := by
      cases op with
      | save r => cases hl : d.lastRequest <;> simp [step, saveCurrentRequest, hl]
      | process e => cases hl : d.lastRequest <;> simp [step, processLastSavedRequest, hl]
    have hr : (runOps d (op :: rest)).1 = (runOps (step d op).1 rest).1 := rfl
    obtain ⟨i1, i2, i3⟩ := ih (step d op).1
    exact ⟨by rw [hr, i1, hstep.1], by rw [hr, i2, hstep.2.1], by rw [hr, i3, hstep.2.2]⟩

/-- C10: a dispatcher built by NewMetricDispatcher has a nil response
callback and no operation of the package ever sets it; consequently
measureAndEmitMetrics never attaches an expected_response tag (the tag
lookup is unchanged from the configured tag context), never appends an
http_req_failed sample, and leaves the tri-state failed flag of the Trail
exactly as it was on the unfinished request (in particular unset when it
started unset). -/
theorem dispatcher_response_callback_never_set (tags : TagsAndMeta)
    (enabled : List String) (ops : List Op) (u : UnfinishedRequest) :
    (runOps (newMetricDispatcher tags enabled) ops).1.responseCallback = none ∧
    (measureAndEmitMetrics (runOps (newMetricDispatcher tags enabled) ops).1 u).trail.failed
      = u.trail.failed ∧
    (∀ s ∈ (measureAndEmitMetrics
        (runOps (newMetricDispatcher tags enabled) ops).1 u).trail.samples,
      s.metric ≠ Metric.httpReqFailed) ∧
    tagGet (measureAndEmitMetrics
        (runOps (newMetricDispatcher tags enabled) ops).1 u).trail.tags
      tagExpectedResponse = tagGet tags.tags tagExpectedResponse := by
  obtain ⟨hcb, htam, -⟩ :=
    runOps_preserves_config (newMetricDispatcher tags enabled) ops
  have hcb0 : (runOps (newMetricDispatcher tags enabled) ops).1.responseCallback = none :=
    hcb
  have hm : measureAndEmitMetrics (runOps (newMetricDispatcher tags enabled) ops).1 u =
      { unfinished := u,
        trail := u.trail.saveSamples
          (emitTags (runOps (newMetricDispatcher tags enabled) ops).1 u),
        errorCode := (outcome (runOps (newMetricDispatcher tags enabled) ops).1 u).1,
        errorMsg := (outcome (runOps (newMetricDispatcher tags enabled) ops).1 u).2.1 } := by
    unfold measureAndEmitMetrics
    rw [hcb0]
  refine ⟨hcb0, ?_, ?_, ?_⟩
  · rw [hm]
    rfl
  · rw [hm]
    intro s hs
    simp only [Trail.saveSamples, List.mem_cons, List.not_mem_nil, or_false] at hs
    rcases hs with rfl | rfl <;> simp
  · rw [hm]
    show tagGet (emitTags _ u).tags tagExpectedResponse = _
    have hexp : expectedOutcome (runOps (newMetricDispatcher tags enabled) ops).1 u
        = none := by
      simp [expectedOutcome, hcb0]
    have hpre : tagGet
        (emitTags (runOps (newMetricDispatcher tags enabled) ops).1 u).tags
        tagExpectedResponse =
        tagGet (outcome (runOps (newMetricDispatcher tags enabled) ops).1 u).2.2.tags
          tagExpectedResponse := by
      simp only [emitTags, hexp]
      exact tagGet_applyIPTag_ne _ _ _ _ (by decide)
    rw [hpre, tagGet_outcome_untouched _ _ _ (by decide) (by decide) (by decide)
      (by decide) (by decide) (by decide), htam]
    rfl

/-- Counterexample for C9: calling SaveSamples a second time with the same
arguments does not leave the Trail holding the base samples twice; the
sample slice is rebuilt from scratch, so the request-count sample occurs
once and the slice length stays 2. -/
theorem saveSamples_double_counterexample :
    ((c9Trail.saveSamples c9Ctm).saveSamples c9Ctm).samples.countP
        (fun s => decide (s.metric = Metric.httpReqs)) = 1 ∧
    ((c9Trail.saveSamples c9Ctm).saveSamples c9Ctm).samples.length = 2 ∧
    ¬ ((c9Trail.saveSamples c9Ctm).saveSamples c9Ctm).samples.countP
        (fun s => decide (s.metric = Metric.httpReqs)) = 2 := by
  refine ⟨rfl, rfl, by decide⟩

/-- C9 amended: SaveSamples replaces the sample slice rather than appending,
so a second call with the same arguments is idempotent and the Trail holds
the request-count and request-duration samples exactly once (any samples
appended between the calls are discarded rather than duplicated). -/
theorem saveSamples_idempotent (tr : Trail) (ctm : TagsAndMeta) :
    (tr.saveSamples ctm).saveSamples ctm = tr.saveSamples ctm ∧
    (tr.saveSamples ctm).samples.countP
      (fun s => decide (s.metric = Metric.httpReqs)) = 1 ∧
    (tr.saveSamples ctm).samples.countP
      (fun s => decide (s.metric = Metric.httpReqDuration)) = 1 :=
  ⟨rfl, rfl, rfl⟩

/-! C1: exactly-once emission over operation traces -/
theorem step_save_spec (d : MetricDispatcher) (r : UnfinishedRequest) :
    (step d (.save r)).1.lastRequest = some r ∧
    ((step d (.save r)).2.map fun f => f.unfinished.request)
      = (d.lastRequest.toList.map fun u => u.request) := by
  cases hl : d.lastRequest with
  | none => simp [step, saveCurrentRequest, hl]
  | some u => simp [step, saveCurrentRequest, hl, measureAndEmit_unfinished]

theorem step_process_spec (d : MetricDispatcher) (lastErr : Option Err) :
    (step d (.process lastErr)).1.lastRequest = none ∧
    ((step d (.process lastErr)).2.map fun f => f.unfinished.request)
      = (d.lastRequest.toList.map fun u => u.request) := by
  cases hl : d.lastRequest with
  | none => simp [step, processLastSavedRequest, hl]
  | some u =>
      refine ⟨by simp [step, processLastSavedRequest, hl], ?_⟩
      simp only [step, processLastSavedRequest, hl, Option.toList_some, List.map_cons,
        List.map_nil, measureAndEmit_unfinished]
      cases hu : u.err <;> cases he : lastErr <;> simp [hu, he]

theorem runOps_emission_invariant (d : MetricDispatcher) (ops : List Op) :
    ((runOps d ops).2.map fun f => f.unfinished.request) ++
      ((runOps d ops).1.lastRequest.toList.map fun u => u.request) =
    (d.lastRequest.toList.map fun u => u.request) ++
      ((stagedRequests ops).map fun u => u.request) := by
  induction ops generalizing d with
  | nil => simp [runOps, stagedRequests]
  | cons op rest ih =>
    have hrun1 : (runOps d (op :: rest)).1 = (runOps (step d op).1 rest).1 := rfl
    have hrun2 : (runOps d (op :: rest)).2
        = (step d op).2 ++ (runOps (step d op).1 rest).2 := rfl
    rw [hrun1, hrun2, List.map_append, List.append_assoc, ih (step d op).1]
    cases op with
    | save r =>
        rw [(step_save_spec d r).1, (step_save_spec d r).2]
        simp [stagedRequests, List.filterMap_cons]
    | process e =>
        rw [(step_process_spec d e).1, (step_process_spec d e).2]
        simp [stagedRequests, List.filterMap_cons]

/-- C1 amended: over every sequence of stage and drain operations on one
dispatcher, each staged UnfinishedRequest is measured-and-emitted exactly
once and in staging order (the emissions concatenated with the one possibly
still-staged request are exactly the staged requests); however the
drain-and-emit of a previously staged request is performed after the slot
swap and after the lock is released, outside the critical section of the
swap, not under the same lock acquisition. -/
theorem dispatcher_exactly_once_emission (tags : TagsAndMeta) (enabled : List String)
    (ops : List Op) :
    ((runOps (newMetricDispatcher tags enabled) ops).2.map fun f => f.unfinished.request)
      ++ ((runOps (newMetricDispatcher tags enabled) ops).1.lastRequest.toList.map
            fun u => u.request)
    = (stagedRequests ops).map fun u => u.request := by
  have h := runOps_emission_invariant (newMetricDispatcher tags enabled) ops
  simpa [newMetricDispatcher] using h

/-- Counterexample for C1: in both dispatcher operations, when a previously
staged request is present, the emit happens (the event occurs) but strictly
after the lock release and after the slot swap has already accepted the next
request, so the drain-and-emit is not performed under the same lock
acquisition as the slot swap. -/
theorem drain_not_under_swap_lock_counterexample :
    emitUnderSwapLock (saveCurrentRequestEvents true) = false ∧
    emitUnderSwapLock (processLastSavedRequestEvents true) = false ∧
    saveCurrentRequestEvents true
      = [LockEvent.lock, LockEvent.swap, LockEvent.unlock, LockEvent.emit] ∧
    processLastSavedRequestEvents true
      = [LockEvent.lock, LockEvent.swap, LockEvent.unlock, LockEvent.emit] := by
  decide

/-- Counterexample for C6: a pooled request previously used for a GET, reused
for a POST carrying a string body, keeps the method GET; the instance method
is not set to the method of the current call in the body-carrying path. -/
theorem setupCachedReq_method_counterexample :
    (setupCachedReq c6CachedReq (.str "payload") "POST").method = "GET" ∧
    (setupCachedReq c6CachedReq (.str "payload") "POST").method ≠ "POST" := by
  decide

/-- C6 amended: on reuse of a pooled request instance, when the current call
is body-less the cached body and body stream are explicitly cleared and the
method is set to the current method; when the current call carries a body
the instance keeps its previous method unchanged (the method is not set in
this path), a FileStream body is re-attached with its position reset to the
start, and any other body kind leaves the instance untouched. -/
theorem setupCachedReq_reset (req : FastReq) (body : ReqBody) (method : String) :
    (setBody method body = false →
      setupCachedReq req body method =
        { req with body := none, bodyStream := none, method := method }) ∧
    (setBody method body = true →
      (setupCachedReq req body method).method = req.method ∧
      (∀ content pos, body = .fileStream content pos →
        setupCachedReq req body method = { req with bodyStream := some (content, 0) }) ∧
      ((∀ content pos, body ≠ .fileStream content pos) →
        setupCachedReq req body method = req)) := by
  constructor
  · intro h
    simp [setupCachedReq, h]
  · intro h
    refine ⟨?_, ?_, ?_⟩
    · simp only [setupCachedReq, h, if_true]
      cases body <;> simp
    · intro content pos hb
      subst hb
      simp [setupCachedReq, h]
    · intro hb
      cases body with
      | fileStream content pos => exact absurd rfl (hb content pos)
      | null => simp [setupCachedReq, h]
      | str s => simp [setupCachedReq, h]
      | arrayBuffer bytes => simp [setupCachedReq, h]

/-- Witness for C6 amended at concrete inputs: reuse for a body-less GET
clears the body and sets the method, and reuse for a POST with a FileStream
body keeps the previous method. -/
theorem setupCachedReq_reset_witness :
    setupCachedReq { method := "POST", uri := "u", body := some [1], bodyStream := none }
        (.str "x") "GET" =
      { method := "GET", uri := "u", body := none, bodyStream := none } ∧
    (setupCachedReq { method := "GET", uri := "u", body := none, bodyStream := none }
        (.fileStream [7] 3) "POST").method = "GET" := by
  constructor
  · exact (setupCachedReq_reset _ _ _).1 (by decide)
  · exact ((setupCachedReq_reset _ _ _).2 (by decide)).1

/-- C7 at the failing input: with expected status 200 and response status
200, both implementations return true, and the goja implementation records
sample value 1 on pass and 0 on fail as claimed, but the sobek
implementation records sample value 0 even on pass. -/
theorem checkStatus_pass_sample_value_bug :
    (checkStatusSobek true ⟨[], []⟩ 200 200 0).1 = true ∧
    (checkStatusSobek true ⟨[], []⟩ 200 200 0).2.value = 0 ∧
    (checkStatusGoja true ⟨[], []⟩ 200 200 0).1 = true ∧
    (checkStatusGoja true ⟨[], []⟩ 200 200 0).2.value = 1 ∧
    (checkStatusGoja true ⟨[], []⟩ 200 404 0).1 = false ∧
    (checkStatusGoja true ⟨[], []⟩ 200 404 0).2.value = 0 :=
  ⟨rfl, rfl, rfl, rfl, rfl, rfl⟩

end XK6
